import Mathlib

/-!
Verification development for the exam-proctor real-time proctoring service
(`python-proctor-service`).  The Python source is shallowly embedded: each
stateful detector / session method becomes a pure Lean function from an
explicit state, wall-clock times and confidence scores are rationals, and
the outputs of the external vision primitives (mediapipe landmarks, pixel
statistics) are abstract per-frame inputs, since the engine only branches
on values derived from them.
-/

namespace Proctor

/-- Last `n` elements of a list (Python `l[-n:]`, the whole list when
`l.length ≤ n`). -/
def lastN {α : Type} (n : Nat) (l : List α) : List α :=
  l.drop (l.length - n)

/-- Append to a bounded deque of capacity `cap` (Python
`collections.deque(maxlen=cap)`, and the explicit
`append` / `if len > cap: pop(0)` idiom of the session history). -/
def pushWin {α : Type} (cap : Nat) (l : List α) (x : α) : List α :=
  let l' := l ++ [x]
  if cap < l'.length then l'.drop (l'.length - cap) else l'

/-- Python `max(scores) if scores else 0.0` over the per-hand typing
confidence scores. -/
def maxQ : List ℚ → ℚ
  | [] => 0
  | x :: xs => xs.foldl max x

/-- Rational subtraction, written out on numerators and denominators.  The
library subtraction on `ℚ` is irreducible, which would block kernel
evaluation of the embedded functions on concrete inputs; `qsub` computes
the same value (see `qsub_eq`) and reduces. -/
def qsub (a b : ℚ) : ℚ :=
  Rat.divInt (a.num * (b.den : ℤ) - b.num * (a.den : ℤ)) ((a.den : ℤ) * (b.den : ℤ))

theorem qsub_eq (a b : ℚ) : qsub a b = a - b := by
  have ha : ((a.den : ℚ)) ≠ 0 := by
    exact_mod_cast a.den_nz
  have hb : ((b.den : ℚ)) ≠ 0 := by
    exact_mod_cast b.den_nz
  have h1 : (a.num : ℚ) = a * a.den := by
    have := Rat.num_div_den a
    rw [div_eq_iff ha] at this
    exact this
  have h2 : (b.num : ℚ) = b * b.den := by
    have := Rat.num_div_den b
    rw [div_eq_iff hb] at this
    exact this
  unfold qsub
  rw [Rat.divInt_eq_div]
  push_cast
  rw [div_eq_iff (mul_ne_zero ha hb), h1, h2]
  ring

/-! ## Hand detector (`hand_detector.py`)

The method `HandDetector.detect` keeps two bounded deques of per-frame
bits (`typing_history`, `hands_visible_history`, both `maxlen=20`).  The
input of one call is what mediapipe returned for the frame: `none` when
`results.multi_hand_landmarks` is falsy, otherwise the list of per-hand
typing-confidence scores produced by `_balanced_typing_analysis` (pure
floating-point geometry on the landmarks; its output list is the abstract
per-frame input here).  Thresholds `0.35`, `0.30`, `0.40` are the
rationals `7/20`, `3/10`, `2/5`, written with `Rat.divInt` so that they
evaluate. -/

structure HDState where
  typingHistory : List Bool := []
  visHistory : List Bool := []
deriving DecidableEq, Repr

structure HandResult where
  count : Nat
  hands_visible : Bool
  typing_gesture_detected : Bool
  in_typing_position : Bool
  confidence : ℚ
  hand_is_typing : List Bool
  smoothed_typing : Bool
  smoothed_visibility : Bool
deriving DecidableEq, Repr

/-- Embedding of `HandDetector.detect` (hand_detector.py lines 32-109).
Returns the updated detector state and the result record. -/
def HandDetector.detect (st : HDState) (obs : Option (List ℚ)) :
    HDState × HandResult :=
  match obs with
  | none =>
    -- lines 43-59: no hands in the frame
    let vis' := pushWin 20 st.visHistory false
    let typ' := pushWin 20 st.typingHistory false
    let recent_invisible := (lastN 10 vis').countP (fun b => !b)
    (⟨typ', vis'⟩,
      { count := 0
        hands_visible := false
        typing_gesture_detected := false
        in_typing_position := false
        confidence := 0
        hand_is_typing := []
        smoothed_typing := decide (8 ≤ typ'.countP id)
        smoothed_visibility := decide (recent_invisible < 8) })
  | some scores =>
    -- lines 61-109: hands detected, `scores` are the per-hand confidences
    let vis' := pushWin 20 st.visHistory true
    let max_confidence := maxQ scores
    let typing_gesture := decide (Rat.divInt 7 20 < max_confidence)
    let typ' := pushWin 20 st.typingHistory typing_gesture
    (⟨typ', vis'⟩,
      { count := scores.length
        hands_visible := true
        typing_gesture_detected := typing_gesture
        in_typing_position := decide (Rat.divInt 3 10 < max_confidence)
        confidence := max_confidence
        hand_is_typing := scores.map (fun c => decide (Rat.divInt 2 5 < c))
        smoothed_typing := decide (8 ≤ typ'.countP id)
        smoothed_visibility := decide (10 ≤ vis'.countP id) })

/-- The bit that one call of `HandDetector.detect` appends to
`typing_history`: `0` when no hands are in the frame, otherwise
`typing_gesture_detected`, i.e. `max_confidence > 0.35`. -/
def recordedTypingBit (obs : Option (List ℚ)) : Bool :=
  match obs with
  | none => false
  | some scores => decide (Rat.divInt 7 20 < maxQ scores)

/-! ## Screen activity detector (`screen_activity_detector.py`)

Only the discrete confirmation machine of `detect_typing_activity`
(lines 134-175) matters for the claims.  One frame's pixel statistics are
abstracted into two booleans: `base` is
`(signature_small_change ∨ signature_typing_flow) ∧ ¬too_large ∧
¬too_small ∧ is_localized`, and `rhythm` is `has_typing_rhythm`; both are
pure functions of the frame data and the detector's rolling float
buffers, which the claims never inspect.  The first frame is absorbed to
initialise `prev_frame` (lines 48-50) and returns `False`. -/

structure SDState where
  havePrev : Bool := false
  consecutive_activity : Nat := 0
deriving DecidableEq, Repr

structure ScreenObs where
  base : Bool
  rhythm : Bool
deriving DecidableEq, Repr

/-- The candidate (`is_typing`) decision of lines 135-141:
`base ∧ (rhythm ∨ consecutive_activity ≥ 2)`. -/
def screenCandidate (st : SDState) (o : ScreenObs) : Bool :=
  o.base && (o.rhythm || decide (2 ≤ st.consecutive_activity))

/-- Embedding of `ScreenActivityDetector.detect_typing_activity`
(lines 22-175): the counter increments on a candidate frame and
decrements saturating at 0 otherwise; the returned `screenTyping` is
`is_typing ∧ counter ≥ 3`. -/
def ScreenActivityDetector.detect_typing_activity (st : SDState) (o : ScreenObs) :
    SDState × Bool :=
  if !st.havePrev then ({ st with havePrev := true }, false)
  else
    let is_typing := screenCandidate st o
    let consec' :=
      if is_typing then st.consecutive_activity + 1 else st.consecutive_activity - 1
    (⟨true, consec'⟩, is_typing && decide (3 ≤ consec'))

/-- A run of the screen detector over a frame sequence, recording for each
frame the candidate (`is_typing`) flag and the returned `screenTyping`
value. -/
def screenRun (st : SDState) : List ScreenObs → List (Bool × Bool)
  | [] => []
  | o :: rest =>
    let cand := if st.havePrev then screenCandidate st o else false
    let r := ScreenActivityDetector.detect_typing_activity st o
    (cand, r.2) :: screenRun r.1 rest

/-- The property asserted by claim C4, as a predicate on a recorded trace
of (candidate, screenTyping) pairs: whenever `screenTyping` transitions
from false to true (at a frame with at least two predecessors), the three
most recent frames were all candidate-positive. -/
def c4holds (tr : List (Bool × Bool)) : Bool :=
  (List.range tr.length).all fun i =>
    !((tr.getD i (false, false)).2 && !((tr.getD (i - 1) (false, false)).2) &&
        decide (2 ≤ i)) ||
      ((tr.getD i (false, false)).1 && (tr.getD (i - 1) (false, false)).1 &&
        (tr.getD (i - 2) (false, false)).1)

/-- Necessary realizability condition on an abstracted screen-frame
sequence fed to a fresh detector: `has_typing_rhythm` needs at least 8
entries in `change_history` (line 121), and one entry is appended per
frame after the initialisation frame (line 112, before the rhythm test),
so at list position `i` (position 0 being the initialisation frame) the
history holds `min i 20` entries and `rhythm` can be true only when
`8 ≤ i`. -/
def rhythmFeasible (obs : List ScreenObs) : Bool :=
  (List.range obs.length).all fun i =>
    !(obs.getD i ⟨false, false⟩).rhythm || decide (8 ≤ i)

/-- Concrete screen-frame sequence for claim C4: one initialisation
frame, then eight warm-up frames with no typing signature and no rhythm
(the rhythm test cannot pass before the change history holds eight
entries), then candidate pattern T, T, F, T, T with typing rhythm
present — by then the history holds 9-13 entries, so the rhythm test can
genuinely pass. -/
def c4Obs : List ScreenObs :=
  List.replicate 9 ⟨false, false⟩ ++
    [⟨true, true⟩, ⟨true, true⟩, ⟨false, true⟩, ⟨true, true⟩, ⟨true, true⟩]

/-! ## Violations, session state and the fusion analysis
(`proctor_server.py`) -/

inductive VType where
  | NO_FACE_DETECTED
  | MULTIPLE_PERSONS
  | GHOST_TYPING_DETECTED
deriving DecidableEq, Repr

inductive Severity where
  | LOW
  | MEDIUM
  | HIGH
  | CRITICAL
deriving DecidableEq, Repr

inductive Scenario where
  | hands_absent
  | hands_not_typing
deriving DecidableEq, Repr

inductive Risk where
  | LOW_RISK
  | MEDIUM_RISK
  | HIGH_RISK
deriving DecidableEq, Repr

/-- A violation record.  The simple per-frame violations only fill the
first four fields; the ghost-typing incidents also carry confidence,
numeric evidence counters and a scenario tag (the code's evidence dict
also embeds the two long-window counters in a formatted string; they are
kept as numeric entries here). -/
structure Violation where
  vtype : VType
  severity : Severity
  timestamp : ℚ
  details : String
  confidence : Option ℚ := none
  evidence : List (String × Nat) := []
  scenario : Option Scenario := none
deriving DecidableEq, Repr

/-- One entry of `ProctorSession.detection_history`
(proctor_server.py lines 134-142). -/
structure Sample where
  timestamp : ℚ
  frame_number : Nat
  hands_visible : Bool
  hands_typing : Bool
  hand_count : Nat
  typing_confidence : ℚ
  screen_typing : Bool
deriving DecidableEq, Repr

/-- The mutable per-session fields of `ProctorSession` (lines 61-97).  The
detector objects are owned by the session in the Python code but are
embedded as separately threaded states (`HDState`, `SDState`); a session
field holding one would never change, only the object behind it. -/
structure Session where
  studentId : String
  examId : String
  violations : List Violation := []
  frameCount : Nat := 0
  screenFrameCount : Nat := 0
  startTime : ℚ
  typingMismatchCount : Nat := 0
  screenTypingDetected : Bool := false
  handsTypingDetected : Bool := false
  handsVisible : Bool := false
  lastCheckTime : ℚ
  detectionHistory : List Sample := []
  ghostTypingIncidents : List Violation := []
  lastGhostTypingTime : ℚ := 0
deriving DecidableEq, Repr

/-- Fresh session, `ProctorSession.__init__` at wall-clock time `t0`. -/
def ProctorSession.init (student_id exam_id : String) (t0 : ℚ) : Session :=
  { studentId := student_id, examId := exam_id, startTime := t0, lastCheckTime := t0 }

/-- Count of history entries with `screen_typing` set (`S_X`). -/
def sCount (l : List Sample) : Nat := l.countP (·.screen_typing)

/-- Count of history entries with `hands_typing` set (`HT_X`). -/
def htCount (l : List Sample) : Nat := l.countP (·.hands_typing)

/-- Count of history entries with hands not visible (`HA_X`). -/
def haCount (l : List Sample) : Nat := l.countP (fun d => !d.hands_visible)

/-- Count of history entries with hands visible but not typing
(`HNT_X`). -/
def hvntCount (l : List Sample) : Nat :=
  l.countP (fun d => d.hands_visible && !d.hands_typing)

/-- Embedding of `ProctorSession._balanced_ghost_typing_analysis`
(proctor_server.py lines 180-298), evaluated at wall-clock time `now`.
Returns the emitted incident, if any, and the updated session. -/
def ProctorSession.balanced_ghost_typing_analysis (s : Session) (now : ℚ) :
    Option Violation × Session :=
  if s.detectionHistory.length < 15 then (none, s)
  else
    -- lines 209-212: 8 second cooldown between detections
    if qsub now s.lastGhostTypingTime < 8 then (none, s)
    else if 12 ≤ sCount (lastN 20 s.detectionHistory) ∧
        14 ≤ haCount (lastN 20 s.detectionHistory) then
      -- scenario 1: screen typing but hands completely absent
      if 30 ≤ s.detectionHistory.length then
        if 18 ≤ sCount (lastN 30 s.detectionHistory) ∧
            21 ≤ haCount (lastN 30 s.detectionHistory) then
          (some
            { vtype := .GHOST_TYPING_DETECTED
              severity := .CRITICAL
              timestamp := now
              details := "Screen typing detected with hands consistently absent"
              confidence := some (Rat.divInt 9 10)
              evidence :=
                [("screen_typing_frames", sCount (lastN 20 s.detectionHistory)),
                 ("hands_not_visible", haCount (lastN 20 s.detectionHistory)),
                 ("longer_screen", sCount (lastN 30 s.detectionHistory)),
                 ("longer_no_hands", haCount (lastN 30 s.detectionHistory))]
              scenario := some .hands_absent },
            { s with typingMismatchCount := s.typingMismatchCount + 1,
                     lastGhostTypingTime := now,
                     ghostTypingIncidents := s.ghostTypingIncidents ++
                       [{ vtype := .GHOST_TYPING_DETECTED
                          severity := .CRITICAL
                          timestamp := now
                          details := "Screen typing detected with hands consistently absent"
                          confidence := some (Rat.divInt 9 10)
                          evidence :=
                            [("screen_typing_frames", sCount (lastN 20 s.detectionHistory)),
                             ("hands_not_visible", haCount (lastN 20 s.detectionHistory)),
                             ("longer_screen", sCount (lastN 30 s.detectionHistory)),
                             ("longer_no_hands", haCount (lastN 30 s.detectionHistory))]
                          scenario := some .hands_absent }] })
        else (none, s)
      else (none, s)
    else if 12 ≤ sCount (lastN 20 s.detectionHistory) ∧
        htCount (lastN 20 s.detectionHistory) ≤ 4 ∧
        14 ≤ hvntCount (lastN 20 s.detectionHistory) then
      -- scenario 2: screen typing but hands visible and not typing
      if 30 ≤ s.detectionHistory.length then
        if 18 ≤ sCount (lastN 30 s.detectionHistory) ∧
            htCount (lastN 30 s.detectionHistory) ≤ 6 then
          (some
            { vtype := .GHOST_TYPING_DETECTED
              severity := .HIGH
              timestamp := now
              details := "Screen typing but hands not in typing position"
              confidence := some (Rat.divInt 4 5)
              evidence :=
                [("screen_typing_frames", sCount (lastN 20 s.detectionHistory)),
                 ("hands_typing_frames", htCount (lastN 20 s.detectionHistory)),
                 ("hands_visible_not_typing", hvntCount (lastN 20 s.detectionHistory)),
                 ("longer_screen", sCount (lastN 30 s.detectionHistory)),
                 ("longer_hands_typing", htCount (lastN 30 s.detectionHistory))]
              scenario := some .hands_not_typing },
            { s with typingMismatchCount := s.typingMismatchCount + 1,
                     lastGhostTypingTime := now,
                     ghostTypingIncidents := s.ghostTypingIncidents ++
                       [{ vtype := .GHOST_TYPING_DETECTED
                          severity := .HIGH
                          timestamp := now
                          details := "Screen typing but hands not in typing position"
                          confidence := some (Rat.divInt 4 5)
                          evidence :=
                            [("screen_typing_frames", sCount (lastN 20 s.detectionHistory)),
                             ("hands_typing_frames", htCount (lastN 20 s.detectionHistory)),
                             ("hands_visible_not_typing", hvntCount (lastN 20 s.detectionHistory)),
                             ("longer_screen", sCount (lastN 30 s.detectionHistory)),
                             ("longer_hands_typing", htCount (lastN 30 s.detectionHistory))]
                          scenario := some .hands_not_typing }] })
        else (none, s)
      else (none, s)
    else (none, s)

/-- One camera frame as the session sees it: the face count from the
upper-body detector, the mediapipe hand observation, and the wall-clock
time of the call. -/
structure CamInput where
  faceCount : Nat
  handObs : Option (List ℚ)
  now : ℚ

/-- The NO_FACE_DETECTED violation record of lines 110-115. -/
def noFaceViolation (t : ℚ) : Violation :=
  { vtype := .NO_FACE_DETECTED, severity := .MEDIUM,
    timestamp := t, details := "Face not visible" }

/-- The MULTIPLE_PERSONS violation record of lines 118-123. -/
def multiplePersonsViolation (t : ℚ) : Violation :=
  { vtype := .MULTIPLE_PERSONS, severity := .CRITICAL,
    timestamp := t, details := "people detected" }

/-- The per-frame face violations of `process_video_frame`
(lines 104-123). -/
def faceViolations (c : Nat) (t : ℚ) : List Violation :=
  (if c = 0 then [noFaceViolation t] else []) ++
  (if 1 < c then [multiplePersonsViolation t] else [])

/-- The `DetectionSample` written into the history for one camera frame
(lines 130-142): the smoothed hand results of the current frame together
with the screen-typing flag most recently set by the screen path. -/
def frameSample (s : Session) (hd : HDState) (inp : CamInput) : Sample :=
  { timestamp := inp.now
    frame_number := s.frameCount
    hands_visible := (HandDetector.detect hd inp.handObs).2.smoothed_visibility
    hands_typing := (HandDetector.detect hd inp.handObs).2.smoothed_typing
    hand_count := (HandDetector.detect hd inp.handObs).2.count
    typing_confidence := (HandDetector.detect hd inp.handObs).2.confidence
    screen_typing := s.screenTypingDetected }

/-- The session state after the hand-detection part of
`process_video_frame` (lines 126-148): smoothed flags stored, the sample
appended to the capped history, and the frame counter advanced. -/
def sessionAfterHands (s : Session) (hd : HDState) (inp : CamInput) : Session :=
  { s with handsVisible := (HandDetector.detect hd inp.handObs).2.smoothed_visibility,
           handsTypingDetected := (HandDetector.detect hd inp.handObs).2.smoothed_typing,
           detectionHistory := pushWin 40 s.detectionHistory (frameSample s hd inp),
           frameCount := s.frameCount + 1 }

/-- Embedding of `ProctorSession.process_video_frame` (lines 99-162).
Returns the per-frame violation list, the updated session, and the
updated hand-detector state.  The fusion analysis runs when at least
`2` seconds have passed since the last evaluation, and `last_check_time`
is then set whether or not anything was emitted. -/
def ProctorSession.process_video_frame (s : Session) (hd : HDState) (inp : CamInput) :
    List Violation × Session × HDState :=
  if 2 ≤ qsub inp.now s.lastCheckTime then
    (faceViolations inp.faceCount inp.now ++
      (ProctorSession.balanced_ghost_typing_analysis
        (sessionAfterHands s hd inp) inp.now).1.toList,
     { (ProctorSession.balanced_ghost_typing_analysis
          (sessionAfterHands s hd inp) inp.now).2 with lastCheckTime := inp.now },
     (HandDetector.detect hd inp.handObs).1)
  else
    (faceViolations inp.faceCount inp.now, sessionAfterHands s hd inp,
     (HandDetector.detect hd inp.handObs).1)

/-- Embedding of `ProctorSession.process_screen_frame` (lines 164-178). -/
def ProctorSession.process_screen_frame (s : Session) (sd : SDState) (o : ScreenObs) :
    List Violation × Session × SDState :=
  ([], { s with screenTypingDetected :=
                  (ScreenActivityDetector.detect_typing_activity sd o).2,
                screenFrameCount := s.screenFrameCount + 1 },
   (ScreenActivityDetector.detect_typing_activity sd o).1)

/-- Test for a ghost-typing violation record. -/
def isGhost (v : Violation) : Bool := v.vtype == .GHOST_TYPING_DETECTED

/-- The wall-clock times at which a run of camera frames emits a
GHOST_TYPING_DETECTED violation (a frame emits at most one). -/
def ghostTimes (s : Session) (hd : HDState) : List CamInput → List ℚ
  | [] => []
  | inp :: rest =>
    let r := ProctorSession.process_video_frame s hd inp
    if r.1.any isGhost then inp.now :: ghostTimes r.2.1 r.2.2 rest
    else ghostTimes r.2.1 r.2.2 rest

end Proctor

namespace Proctor

/-! ## Helper lemmas about the fusion analysis -/

theorem analysis_cases (s : Session) (now : ℚ) :
    ((ProctorSession.balanced_ghost_typing_analysis s now).1 = none ∧
      (ProctorSession.balanced_ghost_typing_analysis s now).2 = s) ∨
    (∃ v, (ProctorSession.balanced_ghost_typing_analysis s now).1 = some v ∧
      v.vtype = .GHOST_TYPING_DETECTED ∧
      (ProctorSession.balanced_ghost_typing_analysis s now).2.lastGhostTypingTime = now ∧
      ¬ qsub now s.lastGhostTypingTime < 8) := by
  simp only [ProctorSession.balanced_ghost_typing_analysis]
  split_ifs with h1 h2 h3 h4 h5 h6 h7 h8
  all_goals
    first
      | exact Or.inl ⟨rfl, rfl⟩
      | exact Or.inr ⟨_, rfl, rfl, rfl, ‹¬ qsub now s.lastGhostTypingTime < 8›⟩

theorem analysis_none_of_short (s : Session) (now : ℚ)
    (hlen : s.detectionHistory.length < 30) :
    (ProctorSession.balanced_ghost_typing_analysis s now).1 = none := by
  simp only [ProctorSession.balanced_ghost_typing_analysis]
  split_ifs
  all_goals
    first
      | rfl
      | exact absurd ‹30 ≤ s.detectionHistory.length› (by omega)

theorem faceViolations_no_ghost (c : Nat) (t : ℚ) :
    (faceViolations c t).any isGhost = false := by
  unfold faceViolations
  split_ifs <;> simp [isGhost, noFaceViolation, multiplePersonsViolation]

theorem sessionAfterHands_lastGhost (s : Session) (hd : HDState) (inp : CamInput) :
    (sessionAfterHands s hd inp).lastGhostTypingTime = s.lastGhostTypingTime := rfl

theorem pvf_ghost_emitted (s : Session) (hd : HDState) (inp : CamInput)
    (h : ((ProctorSession.process_video_frame s hd inp).1.any isGhost) = true) :
    (ProctorSession.process_video_frame s hd inp).2.1.lastGhostTypingTime = inp.now ∧
    s.lastGhostTypingTime + 8 ≤ inp.now := by
  unfold ProctorSession.process_video_frame at h ⊢
  by_cases htr : 2 ≤ qsub inp.now s.lastCheckTime
  · rw [if_pos htr] at h ⊢
    dsimp only at h ⊢
    rw [List.any_append, faceViolations_no_ghost, Bool.false_or] at h
    rcases analysis_cases (sessionAfterHands s hd inp) inp.now with
      hnone | ⟨v, hv, hty, hlast, hcool⟩
    · rw [hnone.1] at h
      simp at h
    · refine ⟨hlast, ?_⟩
      rw [sessionAfterHands_lastGhost, qsub_eq] at hcool
      have := not_lt.mp hcool
      linarith
  · rw [if_neg htr] at h
    dsimp only at h
    rw [faceViolations_no_ghost] at h
    cases h

theorem pvf_no_ghost (s : Session) (hd : HDState) (inp : CamInput)
    (h : ((ProctorSession.process_video_frame s hd inp).1.any isGhost) = false) :
    (ProctorSession.process_video_frame s hd inp).2.1.lastGhostTypingTime =
      s.lastGhostTypingTime := by
  unfold ProctorSession.process_video_frame at h ⊢
  by_cases htr : 2 ≤ qsub inp.now s.lastCheckTime
  · rw [if_pos htr] at h ⊢
    dsimp only at h ⊢
    rw [List.any_append, faceViolations_no_ghost, Bool.false_or] at h
    rcases analysis_cases (sessionAfterHands s hd inp) inp.now with
      hnone | ⟨v, hv, hty, hlast, hcool⟩
    · rw [hnone.2]
      exact sessionAfterHands_lastGhost s hd inp
    · rw [hv] at h
      simp [isGhost, hty] at h
  · rw [if_neg htr]
    exact sessionAfterHands_lastGhost s hd inp

theorem ghostTimes_lower_bound (L : List CamInput) :
    ∀ (s : Session) (hd : HDState), ∀ t ∈ ghostTimes s hd L,
      s.lastGhostTypingTime + 8 ≤ t := by
  induction L with
  | nil =>
    intro s hd t ht
    simp [ghostTimes] at ht
  | cons inp rest ih =>
    intro s hd t ht
    rw [ghostTimes] at ht
    by_cases h : ((ProctorSession.process_video_frame s hd inp).1.any isGhost) = true
    · rw [if_pos h] at ht
      obtain ⟨hlast, hcool⟩ := pvf_ghost_emitted s hd inp h
      rcases List.mem_cons.mp ht with rfl | hmem
      · exact hcool
      · have := ih _ _ t hmem
        rw [hlast] at this
        linarith
    · rw [if_neg h] at ht
      have hl := pvf_no_ghost s hd inp (by simpa using h)
      have := ih _ _ t ht
      rw [hl] at this
      exact this

end Proctor

namespace Proctor

/-! ## Hand-detector claims -/

/-- Claim C3 (counterexample): on a fresh detector a single no-hands frame
already yields `smoothed_visibility = true`, although the visibility
window holds a single sample (under-filled, so the claim demands `false`)
and its count of `true` samples is `0 < 8` (so the claimed
`count_true ≥ 8` rule also demands `false`). -/
theorem c3_counterexample :
    (HandDetector.detect ⟨[], []⟩ none).2.smoothed_visibility = true ∧
    (HandDetector.detect ⟨[], []⟩ none).1.visHistory.countP id = 0 ∧
    (HandDetector.detect ⟨[], []⟩ none).1.visHistory.length < 20 := by
  decide

/-- Claim C3 (amended): the smoothed typing output follows the claimed
rule — true iff at least 8 of the (at most) 20 samples in the updated
typing window are true, with no special under-fill case — in both the
no-hands and the hands branch.  The smoothed visibility output does not:
when no hands are in the current frame it is true iff fewer than 8 of the
last 10 visibility samples are false, and when hands are present it is
true iff at least 10 of the 20-sample visibility window are true. -/
theorem c3_amended (st : HDState) (obs : Option (List ℚ)) :
    (HandDetector.detect st obs).2.smoothed_typing =
      decide (8 ≤ (pushWin 20 st.typingHistory (recordedTypingBit obs)).countP id) ∧
    (HandDetector.detect st obs).2.smoothed_visibility =
      (match obs with
        | none =>
          decide ((lastN 10 (pushWin 20 st.visHistory false)).countP (fun b => !b) < 8)
        | some _ =>
          decide (10 ≤ (pushWin 20 st.visHistory true).countP id)) := by
  cases obs <;> simp [HandDetector.detect, recordedTypingBit]

end Proctor

namespace Proctor

/-! ## Screen-detector claim -/

/-- Claim C4 (counterexample): on a realizable screen-frame sequence —
rhythm only claimed once the change history can hold eight entries — the
candidate pattern T, T, F, T, T makes the returned `screenTyping`
transition from false to true at the last frame although the frame two
before it was not candidate-positive: the consecutive counter decrements
instead of resetting, so `counter ≥ 3` does not imply three consecutive
candidate-positive frames. -/
theorem c4_counterexample :
    rhythmFeasible c4Obs = true ∧
    c4holds (screenRun ⟨false, 0⟩ c4Obs) = false ∧
    (screenRun ⟨false, 0⟩ c4Obs).map Prod.snd =
      List.replicate 13 false ++ [true] ∧
    (screenRun ⟨false, 0⟩ c4Obs).map Prod.fst =
      List.replicate 9 false ++ [true, true, false, true, true] := by
  decide

/-- Claim C4 (amended): `screenTyping = true` is returned only when the
current frame is candidate-positive and the post-update consecutive
counter is at least 3; because the counter decrements by one (rather than
resetting) on a non-candidate frame, a false-to-true transition does not
require the three most recent frames to all be candidate-positive. -/
theorem c4_amended (st : SDState) (o : ScreenObs)
    (h : (ScreenActivityDetector.detect_typing_activity st o).2 = true) :
    screenCandidate st o = true ∧
    3 ≤ (ScreenActivityDetector.detect_typing_activity st o).1.consecutive_activity := by
  unfold ScreenActivityDetector.detect_typing_activity at h ⊢
  by_cases hp : st.havePrev
  · simp only [hp, Bool.not_true, Bool.false_eq_true, if_false] at h ⊢
    rcases Bool.and_eq_true _ _ |>.mp h with ⟨h1, h2⟩
    simp only [h1, if_true] at h2 ⊢
    exact ⟨trivial, of_decide_eq_true h2⟩
  · simp only [hp, Bool.not_false, if_true] at h
    cases h

/-- Witness for `c4_amended` at a concrete state and frame. -/
theorem c4_amended_witness :
    screenCandidate ⟨true, 2⟩ ⟨true, true⟩ = true ∧
    3 ≤ (ScreenActivityDetector.detect_typing_activity ⟨true, 2⟩
          ⟨true, true⟩).1.consecutive_activity :=
  c4_amended ⟨true, 2⟩ ⟨true, true⟩ (by decide)

end Proctor

namespace Proctor

/-! ## Fusion claims -/

/-- Claim C1: at a fusion evaluation tick where the 8-second ghost-typing
cooldown has elapsed and the history holds at least 30 samples, a
GHOST_TYPING_DETECTED violation with severity CRITICAL, confidence 0.90
(= 9/10) and scenario `hands_absent` is emitted iff at least 12 of the
last 20 samples have screen typing and at least 14 have hands not
visible, and at least 18 of the last 30 have screen typing and at least
21 have hands not visible. -/
theorem c1_scenario1_iff (s : Session) (now : ℚ)
    (hcool : 8 ≤ qsub now s.lastGhostTypingTime)
    (hlen : 30 ≤ s.detectionHistory.length) :
    (∃ v, (ProctorSession.balanced_ghost_typing_analysis s now).1 = some v ∧
      v.vtype = .GHOST_TYPING_DETECTED ∧ v.severity = .CRITICAL ∧
      v.confidence = some (Rat.divInt 9 10) ∧ v.scenario = some .hands_absent) ↔
    (12 ≤ sCount (lastN 20 s.detectionHistory) ∧
      14 ≤ haCount (lastN 20 s.detectionHistory) ∧
      18 ≤ sCount (lastN 30 s.detectionHistory) ∧
      21 ≤ haCount (lastN 30 s.detectionHistory)) := by
  have h15 : ¬ s.detectionHistory.length < 15 := by omega
  have h8 : ¬ qsub now s.lastGhostTypingTime < 8 := not_lt.mpr hcool
  simp only [ProctorSession.balanced_ghost_typing_analysis, h15, h8, hlen,
    if_true, if_false]
  split_ifs with hA hB hC hD
  · constructor
    · intro _
      exact ⟨hA.1, hA.2, hB.1, hB.2⟩
    · intro _
      exact ⟨_, rfl, rfl, rfl, rfl, rfl⟩
  · constructor
    · rintro ⟨v, hv, -⟩
      exact nomatch hv
    · rintro ⟨-, -, h1', h2'⟩
      exact absurd ⟨h1', h2'⟩ hB
  · constructor
    · rintro ⟨v, hv, -, hsev, -, -⟩
      obtain rfl := Option.some.inj hv
      simp at hsev
    · rintro ⟨h1', h2', -⟩
      exact absurd ⟨h1', h2'⟩ hA
  · constructor
    · rintro ⟨v, hv, -⟩
      exact nomatch hv
    · rintro ⟨h1', h2', -⟩
      exact absurd ⟨h1', h2'⟩ hA
  · constructor
    · rintro ⟨v, hv, -⟩
      exact nomatch hv
    · rintro ⟨h1', h2', -⟩
      exact absurd ⟨h1', h2'⟩ hA

/-- A history entry representing screen typing with hands absent. -/
def ghostSample : Sample :=
  { timestamp := 0, frame_number := 0, hands_visible := false,
    hands_typing := false, hand_count := 0, typing_confidence := 0,
    screen_typing := true }

/-- Session whose history is 30 ghost-typing samples. -/
def c1Session : Session :=
  { ProctorSession.init "student" "exam" 0 with
      detectionHistory := List.replicate 30 ghostSample }

/-- Witness for `c1_scenario1_iff` at a concrete session and time. -/
theorem c1_scenario1_iff_witness :
    ∃ v, (ProctorSession.balanced_ghost_typing_analysis c1Session 100).1 = some v ∧
      v.vtype = .GHOST_TYPING_DETECTED ∧ v.severity = .CRITICAL ∧
      v.confidence = some (Rat.divInt 9 10) ∧ v.scenario = some .hands_absent :=
  (c1_scenario1_iff c1Session 100 (by decide) (by decide)).mpr (by decide)

/-- Claim C9: with fewer than 30 samples in the detection history the
fusion analysis emits nothing, under any input: both scenarios require a
30-sample confirmation window, although the stated precondition is only
15 samples. -/
theorem c9_short_history_no_emission (s : Session) (now : ℚ)
    (hlen : s.detectionHistory.length < 30) :
    (ProctorSession.balanced_ghost_typing_analysis s now).1 = none :=
  analysis_none_of_short s now hlen

/-- Session whose history is 20 ghost-typing samples: the scenario-1
primary test passes, yet nothing is emitted. -/
def c9Session : Session :=
  { ProctorSession.init "student" "exam" 0 with
      detectionHistory := List.replicate 20 ghostSample }

/-- Witness for `c9_short_history_no_emission` at a concrete session. -/
theorem c9_witness :
    (ProctorSession.balanced_ghost_typing_analysis c9Session 100).1 = none :=
  c9_short_history_no_emission c9Session 100 (by decide)

/-- Claim C2: over any run of camera frames, the wall-clock times of any
two GHOST_TYPING_DETECTED emissions (of either scenario) differ by at
least 8 seconds: the global cooldown is armed on every emission and
checked before any scenario fires. -/
theorem c2_ghost_cooldown (s : Session) (hd : HDState) (L : List CamInput) :
    (ghostTimes s hd L).Pairwise (fun a b => a + 8 ≤ b) := by
  induction L generalizing s hd with
  | nil => simp [ghostTimes]
  | cons inp rest ih =>
    rw [ghostTimes]
    by_cases h : ((ProctorSession.process_video_frame s hd inp).1.any isGhost) = true
    · rw [if_pos h]
      obtain ⟨hlast, -⟩ := pvf_ghost_emitted s hd inp h
      refine List.Pairwise.cons ?_ (ih _ _)
      intro b hb
      have := ghostTimes_lower_bound rest _ _ b hb
      rw [hlast] at this
      linarith
    · rw [if_neg h]
      exact ih _ _

end Proctor

namespace Proctor

/-! ## Per-frame face violations (claim C5) -/

/-- Claim C5 (counterexample): two consecutive camera frames with
`faceCount = 0`, half a wall-clock second apart — far less than the
claimed 5-second per-kind cooldown — each emit a NO_FACE_DETECTED
violation: `process_video_frame` applies no cooldown to the per-frame
face violations. -/
theorem c5_counterexample :
    ((ProctorSession.process_video_frame (ProctorSession.init "stu" "ex" 1000)
        ⟨[], []⟩ ⟨0, none, 1000⟩).1.countP
          (fun v => v.vtype == .NO_FACE_DETECTED) = 1) ∧
    ((ProctorSession.process_video_frame
        (ProctorSession.process_video_frame (ProctorSession.init "stu" "ex" 1000)
          ⟨[], []⟩ ⟨0, none, 1000⟩).2.1
        (ProctorSession.process_video_frame (ProctorSession.init "stu" "ex" 1000)
          ⟨[], []⟩ ⟨0, none, 1000⟩).2.2
        ⟨0, none, Rat.divInt 2001 2⟩).1.countP
          (fun v => v.vtype == .NO_FACE_DETECTED) = 1) ∧
    (qsub (Rat.divInt 2001 2) 1000 < 5) := by
  decide

/-- Claim C5 (amended): there is no per-kind cooldown for either
per-frame violation: every processed camera frame with `faceCount = 0`
emits a NO_FACE_DETECTED violation of severity MEDIUM, and every
processed camera frame with `faceCount ≥ 2` (written `c + 2`) emits a
MULTIPLE_PERSONS violation of severity CRITICAL, whatever the session
state and however recently the previous one of the same kind was
emitted. -/
theorem c5_no_cooldown_per_frame (s : Session) (hd : HDState)
    (obs : Option (List ℚ)) (now : ℚ) (c : Nat) :
    (∃ v ∈ (ProctorSession.process_video_frame s hd ⟨0, obs, now⟩).1,
      v.vtype = .NO_FACE_DETECTED ∧ v.severity = .MEDIUM) ∧
    (∃ v ∈ (ProctorSession.process_video_frame s hd ⟨c + 2, obs, now⟩).1,
      v.vtype = .MULTIPLE_PERSONS ∧ v.severity = .CRITICAL) := by
  have hmemA : noFaceViolation now ∈ faceViolations (0 : Nat) now := by
    simp [faceViolations]
  have h0 : ¬ (c + 2 = 0) := by omega
  have h1 : 1 < c + 2 := by omega
  have hmemB : multiplePersonsViolation now ∈ faceViolations (c + 2) now := by
    simp [faceViolations, h0, h1]
  constructor
  · unfold ProctorSession.process_video_frame
    by_cases htr : 2 ≤ qsub (⟨0, obs, now⟩ : CamInput).now s.lastCheckTime
    · rw [if_pos htr]
      exact ⟨_, List.mem_append_left _ hmemA, rfl, rfl⟩
    · rw [if_neg htr]
      exact ⟨_, hmemA, rfl, rfl⟩
  · unfold ProctorSession.process_video_frame
    by_cases htr : 2 ≤ qsub (⟨c + 2, obs, now⟩ : CamInput).now s.lastCheckTime
    · rw [if_pos htr]
      exact ⟨_, List.mem_append_left _ hmemB, rfl, rfl⟩
    · rw [if_neg htr]
      exact ⟨_, hmemB, rfl, rfl⟩

end Proctor

namespace Proctor

/-! ## Report generation and session end (claims C8, C6) -/

structure Report where
  studentId : String
  examId : String
  duration : ℚ
  totalViolations : Nat
  detailedViolations : List Violation
  riskLevel : Risk
  framesProcessed : Nat
  screenFramesProcessed : Nat
  ghostTyping : Nat
  noFace : Nat
  multiplePersons : Nat
deriving DecidableEq, Repr

/-- Embedding of `ProctorSession.generate_report` (lines 300-339) at
wall-clock time `now`. -/
def ProctorSession.generate_report (s : Session) (now : ℚ) : Report :=
  { studentId := s.studentId
    examId := s.examId
    duration := qsub now s.startTime
    totalViolations := s.violations.length
    detailedViolations := lastN 20 s.violations
    riskLevel :=
      if 3 ≤ s.violations.countP (fun v => v.vtype == .GHOST_TYPING_DETECTED) ∨
          2 ≤ s.violations.countP (fun v => v.vtype == .MULTIPLE_PERSONS) then
        .HIGH_RISK
      else if 1 ≤ s.violations.countP (fun v => v.vtype == .GHOST_TYPING_DETECTED) ∨
          20 < s.violations.countP (fun v => v.vtype == .NO_FACE_DETECTED) then
        .MEDIUM_RISK
      else .LOW_RISK
    framesProcessed := s.frameCount
    screenFramesProcessed := s.screenFrameCount
    ghostTyping := s.violations.countP (fun v => v.vtype == .GHOST_TYPING_DETECTED)
    noFace := s.violations.countP (fun v => v.vtype == .NO_FACE_DETECTED)
    multiplePersons := s.violations.countP (fun v => v.vtype == .MULTIPLE_PERSONS) }

/-- Claim C8: the report's risk level is HIGH_RISK iff
`ghost ≥ 3 ∨ multiple ≥ 2`; otherwise MEDIUM_RISK iff
`ghost ≥ 1 ∨ noFace > 20`; otherwise LOW_RISK, with the counts taken over
the session's violation log. -/
theorem c8_risk_classification (s : Session) (now : ℚ) :
    ((ProctorSession.generate_report s now).riskLevel = .HIGH_RISK ↔
      (3 ≤ s.violations.countP (fun v => v.vtype == .GHOST_TYPING_DETECTED) ∨
        2 ≤ s.violations.countP (fun v => v.vtype == .MULTIPLE_PERSONS))) ∧
    ((ProctorSession.generate_report s now).riskLevel = .MEDIUM_RISK ↔
      (¬ (3 ≤ s.violations.countP (fun v => v.vtype == .GHOST_TYPING_DETECTED) ∨
          2 ≤ s.violations.countP (fun v => v.vtype == .MULTIPLE_PERSONS)) ∧
        (1 ≤ s.violations.countP (fun v => v.vtype == .GHOST_TYPING_DETECTED) ∨
          20 < s.violations.countP (fun v => v.vtype == .NO_FACE_DETECTED)))) ∧
    ((ProctorSession.generate_report s now).riskLevel = .LOW_RISK ↔
      (¬ (3 ≤ s.violations.countP (fun v => v.vtype == .GHOST_TYPING_DETECTED) ∨
          2 ≤ s.violations.countP (fun v => v.vtype == .MULTIPLE_PERSONS)) ∧
        ¬ (1 ≤ s.violations.countP (fun v => v.vtype == .GHOST_TYPING_DETECTED) ∨
          20 < s.violations.countP (fun v => v.vtype == .NO_FACE_DETECTED)))) := by
  simp only [ProctorSession.generate_report]
  split_ifs with h1 h2 <;> simp_all

/-- Outbound messages of the socket layer that the embedded handlers can
produce. -/
inductive OutMsg where
  | violation_detected (viols : List Violation) (source : Option String)
  | proctoring_ended (report : Report)
  | error_message (msg : String)
deriving DecidableEq, Repr

/-- Association-list lookup for the `active_sessions` dict and the
durable store. -/
def alookup {α : Type} (l : List (String × α)) (k : String) : Option α :=
  (l.find? (fun p => p.1 == k)).map (·.2)

/-- Server-level state for the session-end path: the registry of active
sessions and the contents of the durable store (the MongoDB database the
server connects to at startup), keyed by session id.  The embedded
handlers record every write to the store; `end_proctoring` performs
none. -/
structure ServerState where
  active_sessions : List (String × Session)
  store : List (String × Report)
deriving Repr

/-- Embedding of the `end_proctoring` handler (proctor_server.py
lines 452-475) for connection `sid` at wall-clock time `now`: look the
session up, generate its report, emit `proctoring_ended`, and delete the
session from the registry.  No operation on the durable store occurs in
the handler. -/
def end_proctoring (srv : ServerState) (sid : String) (now : ℚ) :
    ServerState × List OutMsg :=
  match alookup srv.active_sessions sid with
  | none => (srv, [.error_message "No active session"])
  | some sess =>
    ({ srv with active_sessions := srv.active_sessions.filter (fun p => !(p.1 == sid)) },
      [.proctoring_ended (ProctorSession.generate_report sess now)])

/-- Concrete one-session server for the claim C6 theorems. -/
def c6Server : ServerState :=
  { active_sessions := [("s1", ProctorSession.init "stu" "ex" 0)], store := [] }

/-- Claim C6 (counterexample): ending the only session of a concrete
server emits its final report and releases the session, but the durable
store still has no entry for the session id — the handler never writes
the report to the store. -/
theorem c6_counterexample :
    (end_proctoring c6Server "s1" 500).1.store = [] ∧
    (end_proctoring c6Server "s1" 500).2 =
      [.proctoring_ended
        (ProctorSession.generate_report (ProctorSession.init "stu" "ex" 0) 500)] ∧
    alookup (end_proctoring c6Server "s1" 500).1.active_sessions "s1" = none := by
  refine ⟨rfl, rfl, rfl⟩

/-- Claim C6 (amended): when a session ends via `end_proctoring`, its
final report is emitted to the client in a `proctoring_ended` message and
the session's in-memory state is released from the registry; the report
is not written to the durable store. -/
theorem c6_end_proctoring (srv : ServerState) (sid : String) (now : ℚ)
    (sess : Session) (hfind : alookup srv.active_sessions sid = some sess) :
    (end_proctoring srv sid now).2 =
      [.proctoring_ended (ProctorSession.generate_report sess now)] ∧
    (end_proctoring srv sid now).1.store = srv.store ∧
    alookup (end_proctoring srv sid now).1.active_sessions sid = none := by
  unfold end_proctoring
  rw [hfind]
  refine ⟨rfl, rfl, ?_⟩
  have hnone : (List.filter (fun p => !(p.1 == sid)) srv.active_sessions).find?
      (fun p => p.1 == sid) = none := by
    rw [List.find?_eq_none]
    intro x hx
    have h2 := (List.mem_filter.mp hx).2
    simp only [Bool.not_eq_true'] at h2
    simp [h2]
  simp [alookup, hnone]

/-- Witness for `c6_end_proctoring` at a concrete server. -/
theorem c6_end_proctoring_witness :
    (end_proctoring c6Server "s1" 500).2 =
      [.proctoring_ended
        (ProctorSession.generate_report (ProctorSession.init "stu" "ex" 0) 500)] ∧
    (end_proctoring c6Server "s1" 500).1.store = c6Server.store ∧
    alookup (end_proctoring c6Server "s1" 500).1.active_sessions "s1" = none :=
  c6_end_proctoring c6Server "s1" 500 (ProctorSession.init "stu" "ex" 0) rfl

end Proctor

namespace Proctor

/-! ## Screen-frame path (claim C10) -/

/-- Embedding of the `screen_frame` handler (proctor_server.py
lines 424-450), at the point where the session has been found and the
frame decoded: process the frame; if the returned list is non-empty,
extend the session log and emit a `violation_detected` message with
source `screen`. -/
def handle_screen_frame (s : Session) (sd : SDState) (o : ScreenObs) :
    (Session × SDState) × List OutMsg :=
  if (ProctorSession.process_screen_frame s sd o).1 = [] then
    (((ProctorSession.process_screen_frame s sd o).2.1,
      (ProctorSession.process_screen_frame s sd o).2.2), [])
  else
    (({ (ProctorSession.process_screen_frame s sd o).2.1 with
          violations := (ProctorSession.process_screen_frame s sd o).2.1.violations ++
            (ProctorSession.process_screen_frame s sd o).1 },
      (ProctorSession.process_screen_frame s sd o).2.2),
     [.violation_detected (ProctorSession.process_screen_frame s sd o).1 (some "screen")])

/-- Claim C10: processing a screen frame returns an empty violation list
and changes only the session's `screen_typing_detected` flag and
`screen_frame_count` counter — the violation log, detection history,
camera frame count and both cooldown clocks are untouched — and the
screen-frame handler consequently never emits a message (its
`violation_detected` branch is unreachable). -/
theorem c10_screen_frame_effects (s : Session) (sd : SDState) (o : ScreenObs) :
    (ProctorSession.process_screen_frame s sd o).1 = [] ∧
    (ProctorSession.process_screen_frame s sd o).2.1 =
      { s with
          screenTypingDetected :=
            (ScreenActivityDetector.detect_typing_activity sd o).2,
          screenFrameCount := s.screenFrameCount + 1 } ∧
    (ProctorSession.process_screen_frame s sd o).2.1.violations = s.violations ∧
    (ProctorSession.process_screen_frame s sd o).2.1.detectionHistory =
      s.detectionHistory ∧
    (ProctorSession.process_screen_frame s sd o).2.1.frameCount = s.frameCount ∧
    (ProctorSession.process_screen_frame s sd o).2.1.lastGhostTypingTime =
      s.lastGhostTypingTime ∧
    (ProctorSession.process_screen_frame s sd o).2.1.lastCheckTime = s.lastCheckTime ∧
    (handle_screen_frame s sd o).2 = [] := by
  refine ⟨rfl, rfl, rfl, rfl, rfl, rfl, rfl, rfl⟩

end Proctor
